import Mathlib

/-!
Shallow embedding of `src/py/flwr/client/clientapp/app.py` (the Flower
ClientApp process driver, `run_clientapp`) and proofs of the spec's claims
about it.

The driver opens a gRPC channel, acquires a token (polling `GetToken` when
none was pre-supplied), pulls one work unit (`PullClientAppInputs`), loads
and invokes the ClientApp callback inside an `except Exception` fault
boundary, pushes the reply (`PushClientAppOutputs`), and closes the channel
in a `finally` block, with outer handlers for `KeyboardInterrupt` and
`grpc.RpcError`.

External collaborators (the gRPC stub, the loader returned by
`get_load_client_app_fn`, and the callback itself) are modelled as
environment functions returning `Except`-values: `.error e` models the call
raising the Python exception `e`.  The driver itself is translated
statement by statement from the source.  The observable behaviour of a run
is its outcome together with the trace of outbound calls and the channel
close.
-/

namespace Flwr

/-- The runtime class of a raised Python exception, as far as the driver's
handlers can distinguish it: `except Exception`, `isinstance(ex,
LoadClientAppError)`, `except KeyboardInterrupt`, `except grpc.RpcError`.
`Other s` is any other `Exception` subclass, `s` being the Python rendering
`str(type(ex))`, e.g. `"<class 'ZeroDivisionError'>"`. -/
inductive PyExcType where
  | LoadClientAppError
  | RpcError
  | KeyboardInterrupt
  | SystemExit
  | Other (typeRendering : String)
  deriving DecidableEq

/-- A raised Python exception: its runtime class and its message (`str(ex)`). -/
structure PyExc where
  ty : PyExcType
  msg : String
  deriving DecidableEq

/-- Python `str(type(ex))` for the modelled exception classes. -/
def PyExcType.typeStr : PyExcType → String
  | .LoadClientAppError => "<class 'flwr.client.client_app.LoadClientAppError'>"
  | .RpcError => "<class 'grpc.RpcError'>"
  | .KeyboardInterrupt => "<class 'KeyboardInterrupt'>"
  | .SystemExit => "<class 'SystemExit'>"
  | .Other s => s

/-- Python `isinstance(ex, Exception)`: `KeyboardInterrupt` and `SystemExit`
derive from `BaseException` but not from `Exception`, so `except Exception`
does not catch them. -/
def PyExc.isException (e : PyExc) : Bool :=
  match e.ty with
  | .KeyboardInterrupt => false
  | .SystemExit => false
  | _ => true

/-- Python `isinstance(ex, LoadClientAppError)`. -/
def PyExc.isLoadClientAppError (e : PyExc) : Bool :=
  e.ty = PyExcType.LoadClientAppError

/-- Modelled from the spec: the error codes of `flwr.common.constant.ErrorCode`
used by the fault boundary (the constants module is not under `src/`; the
spec names `LoadFailure = LOAD_CLIENT_APP_EXCEPTION` and
`ExecutionFailure = CLIENT_APP_RAISED_EXCEPTION` as distinct codes). -/
inductive ErrorCode where
  | UNKNOWN
  | LOAD_CLIENT_APP_EXCEPTION
  | CLIENT_APP_RAISED_EXCEPTION
  deriving DecidableEq

/-- Modelled from the spec: the `Error` report `{code, reason}` attached to a
reply message (`flwr.common.message.Error` is not under `src/`). -/
structure Error where
  code : ErrorCode
  reason : String
  deriving DecidableEq

/-- Modelled from the spec: a `flwr.common.Message` (not under `src/`),
abstracted to its routing metadata, an optional payload, and an optional
error report. -/
structure Message where
  metadata : Nat
  content : Option Nat
  error : Option Error
  deriving DecidableEq

/-- Modelled from the spec: `Message.create_error_reply` (not under `src/`)
preserves the original message's routing metadata and attaches the error
report; an error reply carries no payload. -/
def Message.create_error_reply (m : Message) (e : Error) : Message :=
  { metadata := m.metadata, content := none, error := some e }

/-- Modelled from the spec: a `flwr.common.Context` (not under `src/`),
abstracted to the mutable state it carries for one run. -/
structure Context where
  state : Nat
  deriving DecidableEq

/-- Modelled from the spec: the `Run` metadata (not under `src/`), read-only,
identifying the application artifact to load. -/
structure Run where
  fab_id : String
  fab_version : String
  deriving DecidableEq

/-- The ClientApp callback obtained from the loader: invoked with the message
and the context, it either returns a reply message together with the
(possibly mutated) context, or raises, in which case the context as mutated
up to the point of failure is what the shared `context` variable still
refers to. -/
abbrev ClientApp := Message → Context → Except (PyExc × Context) (Message × Context)

/-- The loader returned by `get_load_client_app_fn` (callback resolution):
given `run.fab_id` and `run.fab_version` it returns the callback or raises. -/
abbrev LoadFn := String → String → Except PyExc ClientApp

/-- The ClientAppIo gRPC stub: the three remote operations the driver
consumes.  `getToken i` is the result of the i-th `GetToken` call (the
supervisor may answer differently across the polling loop); `.error e`
models the call raising `e`. -/
structure Stub where
  getToken : Nat → Except PyExc (Option Nat)
  pullClientAppInputs : Nat → Except PyExc (Message × Context × Run)
  pushClientAppOutputs : Nat → Message → Context → Except PyExc Unit

/-- One observable outbound action of the driver. -/
inductive Event where
  | getTokenCall
  | pullCall (token : Nat)
  | pushCall (token : Nat) (message : Message) (context : Context)
  | channelClose
  deriving DecidableEq

def Event.isGetToken : Event → Bool
  | .getTokenCall => true
  | _ => false

def Event.isPull : Event → Bool
  | .pullCall _ => true
  | _ => false

def Event.isPush : Event → Bool
  | .pushCall _ _ _ => true
  | _ => false

def Event.isClose : Event → Bool
  | .channelClose => true
  | _ => false

/-- How `run_clientapp` exits: the `try` body completed, an outer handler
caught `KeyboardInterrupt` (logged INFO) or `grpc.RpcError` (logged ERROR),
some other exception escaped (re-raised after the `finally`), or the token
polling loop is still running (the Python loop has no bound; `outOfFuel`
marks a run that never exits within the modelled fuel). -/
inductive Outcome where
  | completed
  | interrupted
  | rpcFailed (msg : String)
  | raised (e : PyExc)
  | outOfFuel
  deriving DecidableEq

/-- Result of the token acquisition phase: token obtained after `calls`
`GetToken` calls, a call raised, or the fuel ran out while polling. -/
inductive PollResult where
  | got (calls : Nat) (token : Nat)
  | raised (calls : Nat) (e : PyExc)
  | outOfFuel (calls : Nat)
  deriving DecidableEq

/-- The `while token is None: token = get_token(stub)` loop, with the calls
already made threaded as the start index `i`.  Each iteration makes one
`GetToken` call. -/
def pollToken (stub : Stub) : Nat → Nat → PollResult
  | 0, i => .outOfFuel i
  | fuel + 1, i =>
    match stub.getToken i with
    | .error e => .raised (i + 1) e
    | .ok none => pollToken stub fuel (i + 1)
    | .ok (some t) => .got (i + 1) t

/-- Token acquisition: a pre-supplied token skips the loop entirely (zero
`GetToken` calls); otherwise the driver polls. -/
def acquireToken (stub : Stub) (token : Option Nat) (fuel : Nat) : PollResult :=
  match token with
  | some t => .got 0 t
  | none => pollToken stub fuel 0

/-- The raw body of the inner `try`: load the ClientApp
(`load_client_app_fn(run.fab_id, run.fab_version)`), then invoke it
(`client_app(message=message, context=context)`).  On failure the pair
carries the raised exception together with the context as it stands at the
point of failure (a resolution failure leaves the fetched context
untouched). -/
def tryLoadAndCall (loadFn : LoadFn) (run : Run) (message : Message)
    (context : Context) : Except (PyExc × Context) (Message × Context) :=
  match loadFn run.fab_id run.fab_version with
  | .error e => .error (e, context)
  | .ok client_app => client_app message context

/-- The inner `try/except Exception` fault boundary of `run_clientapp`:
run `tryLoadAndCall` and on any caught `Exception` build the error reply
via `create_error_reply`; the `Error`'s code and reason are chosen exactly
as in the source:

    e_code = ErrorCode.CLIENT_APP_RAISED_EXCEPTION
    reason = str(type(ex)) + ":<'" + str(ex) + "'>"
    if isinstance(ex, LoadClientAppError):
        reason = "An exception was raised when attempting to load `ClientApp`"
        e_code = ErrorCode.LOAD_CLIENT_APP_EXCEPTION

Returns the reply message and the context to push, or the exception when it
is not an `Exception` instance and escapes the boundary. -/
def callbackBoundary (loadFn : LoadFn) (run : Run) (message : Message)
    (context : Context) : Except PyExc (Message × Context) :=
  match tryLoadAndCall loadFn run message context with
  | .ok r => .ok r
  | .error (ex, ctx1) =>
    if ex.isException then
      let e_code :=
        if ex.isLoadClientAppError then ErrorCode.LOAD_CLIENT_APP_EXCEPTION
        else ErrorCode.CLIENT_APP_RAISED_EXCEPTION
      let reason :=
        if ex.isLoadClientAppError then
          "An exception was raised when attempting to load `ClientApp`"
        else ex.ty.typeStr ++ ":<'" ++ ex.msg ++ "'>"
      .ok (message.create_error_reply { code := e_code, reason := reason }, ctx1)
    else .error ex

/-- Result of the outer `try` body: completed, raised `e`, or never exited
the polling loop. -/
inductive BodyResult where
  | ok
  | exc (e : PyExc)
  | outOfFuel
  deriving DecidableEq

/-- The part of the `try` body after a token is known: one
`pull_message` call, the fault boundary, and one `push_message` call
(the push event records the call being made even when it raises). -/
def afterToken (stub : Stub) (loadFn : LoadFn) (t : Nat) :
    BodyResult × List Event :=
  match stub.pullClientAppInputs t with
  | .error e => (.exc e, [.pullCall t])
  | .ok (message, context, run) =>
    match callbackBoundary loadFn run message context with
    | .error ex => (.exc ex, [.pullCall t])
    | .ok (reply_message, ctx1) =>
      match stub.pushClientAppOutputs t reply_message ctx1 with
      | .ok _ => (.ok, [.pullCall t, .pushCall t reply_message ctx1])
      | .error e => (.exc e, [.pullCall t, .pushCall t reply_message ctx1])

/-- The whole outer `try` body: token acquisition followed by `afterToken`. -/
def runBody (stub : Stub) (loadFn : LoadFn) (token : Option Nat) (fuel : Nat) :
    BodyResult × List Event :=
  match acquireToken stub token fuel with
  | .raised calls e => (.exc e, List.replicate calls .getTokenCall)
  | .outOfFuel calls => (.outOfFuel, List.replicate calls .getTokenCall)
  | .got calls t =>
    ((afterToken stub loadFn t).1,
      List.replicate calls .getTokenCall ++ (afterToken stub loadFn t).2)

/-- The outer exception handlers: `except KeyboardInterrupt` logs INFO,
`except grpc.RpcError` logs ERROR, anything else re-raises past
`run_clientapp` (after the `finally`). -/
def outcomeOfExc (e : PyExc) : Outcome :=
  if e.ty = PyExcType.KeyboardInterrupt then .interrupted
  else if e.ty = PyExcType.RpcError then .rpcFailed e.msg
  else .raised e

/-- `run_clientapp`: the outer `try/except/finally`.  The `finally` closes
the channel on every exit path; a run still inside the polling loop never
reaches it. -/
def run_clientapp (stub : Stub) (loadFn : LoadFn) (token : Option Nat)
    (fuel : Nat) : Outcome × List Event :=
  match runBody stub loadFn token fuel with
  | (.outOfFuel, evs) => (.outOfFuel, evs)
  | (.ok, evs) => (.completed, evs ++ [.channelClose])
  | (.exc e, evs) => (outcomeOfExc e, evs ++ [.channelClose])

/-! ### Concrete scenario environments -/

/-- The work unit used by the concrete scenarios. -/
def msg0 : Message := { metadata := 1, content := some 5, error := none }

def ctx0 : Context := { state := 3 }

def run0 : Run := { fab_id := "proj", fab_version := "1.0" }

/-- The reply a successful callback produces in the scenarios. -/
def msg1 : Message := { metadata := 2, content := some 8, error := none }

/-- The context after the scenario callback's mutation. -/
def ctx1 : Context := { state := 4 }

/-- Supervisor stub: token 7 on request, the work unit above, pushes
acknowledged. -/
def stubOk : Stub :=
  { getToken := fun _ => .ok (some 7)
  , pullClientAppInputs := fun _ => .ok (msg0, ctx0, run0)
  , pushClientAppOutputs := fun _ _ _ => .ok () }

/-- Loader for Scenario A: the callback returns `msg1` and mutates the
context to `ctx1`. -/
def loadOk : LoadFn := fun _ _ => .ok (fun _ _ => .ok (msg1, ctx1))

/-- Loader for Scenario D: the callback raises
`ZeroDivisionError("division by zero")` after mutating nothing. -/
def loadZeroDiv : LoadFn := fun _ _ =>
  .ok (fun _ c => .error (⟨.Other "<class 'ZeroDivisionError'>", "division by zero"⟩, c))

/-- Loader for Scenario C: callback resolution raises
`LoadClientAppError("app.toml missing")`. -/
def loadFailC : LoadFn := fun _ _ => .error ⟨.LoadClientAppError, "app.toml missing"⟩

/-- Loader raising `LoadClientAppError` during invocation (after loading
succeeded) — exercises the type-based classification of the boundary. -/
def loadLateLoadErr : LoadFn := fun _ _ =>
  .ok (fun _ c => .error (⟨.LoadClientAppError, "late load error"⟩, c))

/-- Loader whose callback raises `KeyboardInterrupt` (a `BaseException`
that is not an `Exception`). -/
def loadKI : LoadFn := fun _ _ =>
  .ok (fun _ c => .error (⟨.KeyboardInterrupt, ""⟩, c))

/-- Loader whose callback raises `SystemExit`. -/
def loadSysExit : LoadFn := fun _ _ =>
  .ok (fun _ c => .error (⟨.SystemExit, "0"⟩, c))

/-- Supervisor stub for Scenario B: `GetToken` answers `null` twice, then
token 42. -/
def stubPoll : Stub :=
  { getToken := fun i => if i < 2 then .ok none else .ok (some 42)
  , pullClientAppInputs := fun _ => .ok (msg0, ctx0, run0)
  , pushClientAppOutputs := fun _ _ _ => .ok () }

/-- Supervisor stub whose `GetToken` raises a gRPC error. -/
def stubTokenRpc : Stub :=
  { getToken := fun _ => .error ⟨.RpcError, "token service down"⟩
  , pullClientAppInputs := fun _ => .ok (msg0, ctx0, run0)
  , pushClientAppOutputs := fun _ _ _ => .ok () }

/-- Supervisor stub whose `PullClientAppInputs` raises a gRPC error. -/
def stubPullRpc : Stub :=
  { getToken := fun _ => .ok (some 7)
  , pullClientAppInputs := fun _ => .error ⟨.RpcError, "pull failed"⟩
  , pushClientAppOutputs := fun _ _ _ => .ok () }

/-- Supervisor stub for Scenario E: `PushClientAppOutputs` raises a gRPC
error. -/
def stubPushRpc : Stub :=
  { getToken := fun _ => .ok (some 7)
  , pullClientAppInputs := fun _ => .ok (msg0, ctx0, run0)
  , pushClientAppOutputs := fun _ _ _ => .error ⟨.RpcError, "push failed"⟩ }

/-! ### Structural lemmas about the driver's trace -/

theorem afterToken_events (stub : Stub) (loadFn : LoadFn) (t : Nat) :
    ∀ e ∈ (afterToken stub loadFn t).2,
      e.isGetToken = false ∧ e.isClose = false := by
  unfold afterToken
  split
  · intro e he
    simp only [List.mem_singleton] at he
    subst he
    exact ⟨rfl, rfl⟩
  · split
    · intro e he
      simp only [List.mem_singleton] at he
      subst he
      exact ⟨rfl, rfl⟩
    · split <;>
        · intro e he
          simp only [List.mem_cons, List.mem_singleton, List.not_mem_nil,
            or_false] at he
          rcases he with h | h <;> subst h <;> exact ⟨rfl, rfl⟩

theorem afterToken_starts_pull (stub : Stub) (loadFn : LoadFn) (t : Nat) :
    ∃ rest, (afterToken stub loadFn t).2 = Event.pullCall t :: rest := by
  unfold afterToken
  split
  · exact ⟨[], rfl⟩
  · split
    · exact ⟨[], rfl⟩
    · split <;> exact ⟨[_], rfl⟩

theorem runBody_got {stub : Stub} {token : Option Nat} {fuel calls t : Nat}
    (loadFn : LoadFn) (h : acquireToken stub token fuel = .got calls t) :
    runBody stub loadFn token fuel =
      ((afterToken stub loadFn t).1,
        List.replicate calls .getTokenCall ++ (afterToken stub loadFn t).2) := by
  simp [runBody, h]

theorem runBody_raised {stub : Stub} {token : Option Nat} {fuel calls : Nat}
    {e : PyExc} (loadFn : LoadFn)
    (h : acquireToken stub token fuel = .raised calls e) :
    runBody stub loadFn token fuel =
      (.exc e, List.replicate calls .getTokenCall) := by
  simp [runBody, h]

theorem run_clientapp_of_runBody_ok {stub : Stub} {loadFn : LoadFn}
    {token : Option Nat} {fuel : Nat} {evs : List Event}
    (h : runBody stub loadFn token fuel = (.ok, evs)) :
    run_clientapp stub loadFn token fuel =
      (.completed, evs ++ [.channelClose]) := by
  simp [run_clientapp, h]

theorem run_clientapp_of_runBody_exc {stub : Stub} {loadFn : LoadFn}
    {token : Option Nat} {fuel : Nat} {evs : List Event} {e : PyExc}
    (h : runBody stub loadFn token fuel = (.exc e, evs)) :
    run_clientapp stub loadFn token fuel =
      (outcomeOfExc e, evs ++ [.channelClose]) := by
  simp [run_clientapp, h]

theorem pollToken_got (stub : Stub) {k : Nat} {t : Nat}
    (hnone : ∀ j, j < k → stub.getToken j = .ok none)
    (hsome : stub.getToken k = .ok (some t)) :
    ∀ fuel i, i ≤ k → k - i < fuel → pollToken stub fuel i = .got (k + 1) t := by
  intro fuel
  induction fuel with
  | zero => intro i h1 h2; omega
  | succ f ih =>
    intro i hik hfu
    by_cases hke : i = k
    · subst hke
      simp [pollToken, hsome]
    · have hlt : i < k := lt_of_le_of_ne hik hke
      have hj : stub.getToken i = .ok none := hnone i hlt
      simpa [pollToken, hj] using ih (i + 1) (by omega) (by omega)

theorem pollToken_raised (stub : Stub) {k : Nat} {e : PyExc}
    (hnone : ∀ j, j < k → stub.getToken j = .ok none)
    (herr : stub.getToken k = .error e) :
    ∀ fuel i, i ≤ k → k - i < fuel →
      pollToken stub fuel i = .raised (k + 1) e := by
  intro fuel
  induction fuel with
  | zero => intro i h1 h2; omega
  | succ f ih =>
    intro i hik hfu
    by_cases hke : i = k
    · subst hke
      simp [pollToken, herr]
    · have hlt : i < k := lt_of_le_of_ne hik hke
      have hj : stub.getToken i = .ok none := hnone i hlt
      simpa [pollToken, hj] using ih (i + 1) (by omega) (by omega)

theorem afterToken_eq_pull_error {stub : Stub} {t : Nat} {e : PyExc}
    (loadFn : LoadFn) (hp : stub.pullClientAppInputs t = .error e) :
    afterToken stub loadFn t = (.exc e, [.pullCall t]) := by
  simp [afterToken, hp]

theorem afterToken_eq_boundary_exc {stub : Stub} {loadFn : LoadFn} {t : Nat}
    {m : Message} {c : Context} {r : Run} {ex : PyExc}
    (hp : stub.pullClientAppInputs t = .ok (m, c, r))
    (hb : callbackBoundary loadFn r m c = .error ex) :
    afterToken stub loadFn t = (.exc ex, [.pullCall t]) := by
  simp [afterToken, hp, hb]

theorem afterToken_eq_push_ok {stub : Stub} {loadFn : LoadFn} {t : Nat}
    {m rm : Message} {c c1 : Context} {r : Run} {u : Unit}
    (hp : stub.pullClientAppInputs t = .ok (m, c, r))
    (hb : callbackBoundary loadFn r m c = .ok (rm, c1))
    (hq : stub.pushClientAppOutputs t rm c1 = .ok u) :
    afterToken stub loadFn t = (.ok, [.pullCall t, .pushCall t rm c1]) := by
  simp [afterToken, hp, hb, hq]

theorem afterToken_eq_push_error {stub : Stub} {loadFn : LoadFn} {t : Nat}
    {m rm : Message} {c c1 : Context} {r : Run} {e : PyExc}
    (hp : stub.pullClientAppInputs t = .ok (m, c, r))
    (hb : callbackBoundary loadFn r m c = .ok (rm, c1))
    (hq : stub.pushClientAppOutputs t rm c1 = .error e) :
    afterToken stub loadFn t = (.exc e, [.pullCall t, .pushCall t rm c1]) := by
  simp [afterToken, hp, hb, hq]

theorem afterToken_fst_ne_outOfFuel (stub : Stub) (loadFn : LoadFn) (t : Nat) :
    (afterToken stub loadFn t).1 ≠ .outOfFuel := by
  unfold afterToken
  split
  · simp
  · split
    · simp
    · split <;> simp

/-- With the token acquired, the run appends a single channel close to the
`afterToken` events, and the outcome is determined by the `afterToken`
result. -/
theorem run_of_afterToken_ok {stub : Stub} {loadFn : LoadFn}
    {token : Option Nat} {fuel calls t : Nat} {evs : List Event}
    (hacq : acquireToken stub token fuel = .got calls t)
    (haf : afterToken stub loadFn t = (.ok, evs)) :
    run_clientapp stub loadFn token fuel =
      (.completed, List.replicate calls .getTokenCall ++ evs ++ [.channelClose]) := by
  have hb := runBody_got loadFn hacq
  rw [haf] at hb
  simpa [List.append_assoc] using run_clientapp_of_runBody_ok hb

theorem run_of_afterToken_exc {stub : Stub} {loadFn : LoadFn}
    {token : Option Nat} {fuel calls t : Nat} {e : PyExc} {evs : List Event}
    (hacq : acquireToken stub token fuel = .got calls t)
    (haf : afterToken stub loadFn t = (.exc e, evs)) :
    run_clientapp stub loadFn token fuel =
      (outcomeOfExc e,
        List.replicate calls .getTokenCall ++ evs ++ [.channelClose]) := by
  have hb := runBody_got loadFn hacq
  rw [haf] at hb
  simpa [List.append_assoc] using run_clientapp_of_runBody_exc hb

theorem run_of_acquire_raised {stub : Stub} {token : Option Nat}
    {fuel calls : Nat} {e : PyExc} (loadFn : LoadFn)
    (hacq : acquireToken stub token fuel = .raised calls e) :
    run_clientapp stub loadFn token fuel =
      (outcomeOfExc e,
        List.replicate calls .getTokenCall ++ [.channelClose]) :=
  run_clientapp_of_runBody_exc (runBody_raised loadFn hacq)

theorem outcomeOfExc_ne_completed (e : PyExc) :
    outcomeOfExc e ≠ .completed := by
  unfold outcomeOfExc
  split_ifs <;> simp

theorem outcomeOfExc_ne_outOfFuel (e : PyExc) :
    outcomeOfExc e ≠ .outOfFuel := by
  unfold outcomeOfExc
  split_ifs <;> simp

/-- The trace of any run that acquired a token: the `GetToken` calls, the
`afterToken` events, one channel close. -/
theorem run_trace_got {stub : Stub} {token : Option Nat} {fuel calls t : Nat}
    (loadFn : LoadFn) (hacq : acquireToken stub token fuel = .got calls t) :
    (run_clientapp stub loadFn token fuel).2 =
      List.replicate calls .getTokenCall ++ (afterToken stub loadFn t).2 ++
        [.channelClose] := by
  rcases haf : afterToken stub loadFn t with ⟨b, evs⟩
  cases b with
  | ok => rw [run_of_afterToken_ok hacq haf]
  | exc e => rw [run_of_afterToken_exc hacq haf]
  | outOfFuel =>
    exact absurd (by rw [haf]) (afterToken_fst_ne_outOfFuel stub loadFn t)

/-! ### Evaluating the fault boundary -/

theorem callbackBoundary_of_call_ok {loadFn : LoadFn} {r : Run}
    {m rm : Message} {c c1 : Context} {app : ClientApp}
    (hload : loadFn r.fab_id r.fab_version = .ok app)
    (hcall : app m c = .ok (rm, c1)) :
    callbackBoundary loadFn r m c = .ok (rm, c1) := by
  simp [callbackBoundary, tryLoadAndCall, hload, hcall]

theorem callbackBoundary_of_exec_exc {loadFn : LoadFn} {r : Run}
    {m : Message} {c c1 : Context} {app : ClientApp} {ex : PyExc}
    (hload : loadFn r.fab_id r.fab_version = .ok app)
    (hcall : app m c = .error (ex, c1))
    (hexc : ex.isException = true)
    (hnl : ex.isLoadClientAppError = false) :
    callbackBoundary loadFn r m c =
      .ok (m.create_error_reply
        { code := .CLIENT_APP_RAISED_EXCEPTION,
          reason := ex.ty.typeStr ++ ":<'" ++ ex.msg ++ "'>" }, c1) := by
  simp [callbackBoundary, tryLoadAndCall, hload, hcall, hexc, hnl]

theorem isException_of_loadError {ex : PyExc}
    (hty : ex.ty = .LoadClientAppError) : ex.isException = true := by
  simp [PyExc.isException, hty]

theorem callbackBoundary_of_loadError_exc {loadFn : LoadFn} {r : Run}
    {m : Message} {c c1 : Context} {ex : PyExc}
    (htry : tryLoadAndCall loadFn r m c = .error (ex, c1))
    (hty : ex.ty = .LoadClientAppError) :
    callbackBoundary loadFn r m c =
      .ok (m.create_error_reply
        { code := .LOAD_CLIENT_APP_EXCEPTION,
          reason := "An exception was raised when attempting to load `ClientApp`" },
        c1) := by
  simp [callbackBoundary, htry, isException_of_loadError hty,
    PyExc.isLoadClientAppError, hty]

theorem callbackBoundary_of_base_exc {loadFn : LoadFn} {r : Run}
    {m : Message} {c c1 : Context} {ex : PyExc}
    (htry : tryLoadAndCall loadFn r m c = .error (ex, c1))
    (hexc : ex.isException = false) :
    callbackBoundary loadFn r m c = .error ex := by
  simp [callbackBoundary, htry, hexc]

theorem afterToken_snd_of_boundary_ok {stub : Stub} {loadFn : LoadFn} {t : Nat}
    {m rm : Message} {c c1 : Context} {r : Run}
    (hp : stub.pullClientAppInputs t = .ok (m, c, r))
    (hb : callbackBoundary loadFn r m c = .ok (rm, c1)) :
    (afterToken stub loadFn t).2 = [.pullCall t, .pushCall t rm c1] := by
  cases hq : stub.pushClientAppOutputs t rm c1 with
  | ok u => rw [afterToken_eq_push_ok hp hb hq]
  | error e => rw [afterToken_eq_push_error hp hb hq]

/-- Whenever the fault boundary yields a reply (success or synthesized
error), the run's trace contains exactly one push — the reply and its
context going to the supervisor — whether the push itself succeeds or
raises. -/
theorem filter_push_of_boundary_ok {stub : Stub} {loadFn : LoadFn}
    {token : Option Nat} {fuel calls t : Nat}
    {m rm : Message} {c c1 : Context} {r : Run}
    (hacq : acquireToken stub token fuel = .got calls t)
    (hp : stub.pullClientAppInputs t = .ok (m, c, r))
    (hb : callbackBoundary loadFn r m c = .ok (rm, c1)) :
    ((run_clientapp stub loadFn token fuel).2).filter Event.isPush =
      [.pushCall t rm c1] := by
  rw [run_trace_got loadFn hacq, afterToken_snd_of_boundary_ok hp hb]
  simp [List.filter_append, List.filter_replicate, Event.isPush]

/-! ### Claims -/

/-- Claim C2: for every callback invocation failure raising an exception of
runtime type `T` with message text `m` (not a load failure), the produced
Reply's error has code `CLIENT_APP_RAISED_EXCEPTION` and its reason string
is exactly `str(type(ex)) ++ ":<'" ++ str(ex) ++ "'>"`, i.e. `"<T>:<'<m>'>"`. -/
theorem C2_execution_failure_reason {stub : Stub} {loadFn : LoadFn}
    {token : Option Nat} {fuel calls t : Nat}
    {m : Message} {c c1 : Context} {r : Run} {app : ClientApp} {ex : PyExc}
    (hacq : acquireToken stub token fuel = .got calls t)
    (hpull : stub.pullClientAppInputs t = .ok (m, c, r))
    (hload : loadFn r.fab_id r.fab_version = .ok app)
    (hcall : app m c = .error (ex, c1))
    (hexc : ex.isException = true)
    (hnl : ex.isLoadClientAppError = false) :
    ((run_clientapp stub loadFn token fuel).2).filter Event.isPush =
      [.pushCall t
        (m.create_error_reply
          { code := .CLIENT_APP_RAISED_EXCEPTION,
            reason := ex.ty.typeStr ++ ":<'" ++ ex.msg ++ "'>" })
        c1] :=
  filter_push_of_boundary_ok hacq hpull
    (callbackBoundary_of_exec_exc hload hcall hexc hnl)

/-- Witness for C2, Scenario D: the callback raises
`ZeroDivisionError("division by zero")`; the pushed reply's reason is
exactly `"<class 'ZeroDivisionError'>:<'division by zero'>"`. -/
theorem C2_witness :
    ((run_clientapp stubOk loadZeroDiv (some 7) 0).2).filter Event.isPush =
      [.pushCall 7
        { metadata := 1, content := none,
          error := some
            { code := .CLIENT_APP_RAISED_EXCEPTION,
              reason := "<class 'ZeroDivisionError'>:<'division by zero'>" } }
        ctx0] := by
  have h := @C2_execution_failure_reason stubOk loadZeroDiv (some 7) 0 0 7
    msg0 ctx0 ctx0 run0
    (fun _ c => .error (⟨.Other "<class 'ZeroDivisionError'>", "division by zero"⟩, c))
    ⟨.Other "<class 'ZeroDivisionError'>", "division by zero"⟩
    rfl rfl rfl rfl rfl rfl
  simpa [Message.create_error_reply, msg0, PyExcType.typeStr] using h

/-- Claim C4: for every successful callback execution, the Reply's message
pushed to the supervisor is exactly the value returned by the callback, and
the pushed context is the context as mutated by the callback. -/
theorem C4_success_reply {stub : Stub} {loadFn : LoadFn}
    {token : Option Nat} {fuel calls t : Nat}
    {m rm : Message} {c c1 : Context} {r : Run} {app : ClientApp}
    (hacq : acquireToken stub token fuel = .got calls t)
    (hpull : stub.pullClientAppInputs t = .ok (m, c, r))
    (hload : loadFn r.fab_id r.fab_version = .ok app)
    (hcall : app m c = .ok (rm, c1)) :
    ((run_clientapp stub loadFn token fuel).2).filter Event.isPush =
      [.pushCall t rm c1] :=
  filter_push_of_boundary_ok hacq hpull (callbackBoundary_of_call_ok hload hcall)

/-- Witness for C4, Scenario A: token pre-supplied 7, callback returns
`msg1` and mutates the context to `ctx1`; the push carries exactly those. -/
theorem C4_witness :
    ((run_clientapp stubOk loadOk (some 7) 0).2).filter Event.isPush =
      [.pushCall 7 msg1 ctx1] :=
  @C4_success_reply stubOk loadOk (some 7) 0 0 7 msg0 msg1 ctx0 ctx1 run0
    (fun _ _ => .ok (msg1, ctx1)) rfl rfl rfl rfl

/-- Counterexample to Claim C3 as stated: at the concrete resolution
failure `LoadClientAppError("app.toml missing")` (Scenario C) the pushed
reply does carry code `LOAD_CLIENT_APP_EXCEPTION` and the unmodified
context, but its fixed reason text is
"An exception was raised when attempting to load `ClientApp`", which is not
the claimed "An exception was raised when attempting to load the
application". -/
theorem C3_counterexample :
    ((run_clientapp stubOk loadFailC (some 7) 0).2).filter Event.isPush =
      [.pushCall 7
        { metadata := 1, content := none,
          error := some
            { code := .LOAD_CLIENT_APP_EXCEPTION,
              reason := "An exception was raised when attempting to load `ClientApp`" } }
        ctx0]
    ∧ ("An exception was raised when attempting to load `ClientApp`" =
        "An exception was raised when attempting to load the application" → False) := by
  constructor
  · rfl
  · decide

/-- Claim C3 (amended): for every callback resolution failure (raising
`LoadClientAppError`, the loader's failure class), the produced Reply's
error has code `LOAD_CLIENT_APP_EXCEPTION` and the fixed reason text
"An exception was raised when attempting to load `ClientApp`" — containing
no underlying exception text — and the context pushed to the supervisor is
exactly the context fetched from the supervisor. -/
theorem C3_load_failure_reply {stub : Stub} {loadFn : LoadFn}
    {token : Option Nat} {fuel calls t : Nat}
    {m : Message} {c : Context} {r : Run} {ex : PyExc}
    (hacq : acquireToken stub token fuel = .got calls t)
    (hpull : stub.pullClientAppInputs t = .ok (m, c, r))
    (hload : loadFn r.fab_id r.fab_version = .error ex)
    (hty : ex.ty = .LoadClientAppError) :
    ((run_clientapp stub loadFn token fuel).2).filter Event.isPush =
      [.pushCall t
        (m.create_error_reply
          { code := .LOAD_CLIENT_APP_EXCEPTION,
            reason := "An exception was raised when attempting to load `ClientApp`" })
        c] :=
  filter_push_of_boundary_ok hacq hpull
    (callbackBoundary_of_loadError_exc (by simp [tryLoadAndCall, hload]) hty)

/-- Witness for C3 (amended), Scenario C: resolution raises
`LoadClientAppError("app.toml missing")`; the push carries the fixed
reason (no trace of "app.toml missing") and the fetched context `ctx0`. -/
theorem C3_witness :
    ((run_clientapp stubOk loadFailC (some 7) 0).2).filter Event.isPush =
      [.pushCall 7
        { metadata := 1, content := none,
          error := some
            { code := .LOAD_CLIENT_APP_EXCEPTION,
              reason := "An exception was raised when attempting to load `ClientApp`" } }
        ctx0] := by
  have h := @C3_load_failure_reply stubOk loadFailC (some 7) 0 0 7
    msg0 ctx0 run0 ⟨.LoadClientAppError, "app.toml missing"⟩
    rfl rfl rfl rfl
  simpa [Message.create_error_reply, msg0] using h

/-- Claim C9 (implicit): the fault boundary classifies failures by the
exception's runtime type, not by which step raised them.  With loading
succeeded, an invocation-raised `LoadClientAppError` still yields code
`LOAD_CLIENT_APP_EXCEPTION` with the fixed load-failure reason (its own
message discarded), while any other caught `Exception` yields
`CLIENT_APP_RAISED_EXCEPTION` with the `"<type>:<'message'>"` reason. -/
theorem C9_classification_by_type {stub : Stub} {loadFn : LoadFn}
    {token : Option Nat} {fuel calls t : Nat}
    {m : Message} {c : Context} {r : Run} {app : ClientApp}
    (hacq : acquireToken stub token fuel = .got calls t)
    (hpull : stub.pullClientAppInputs t = .ok (m, c, r))
    (hload : loadFn r.fab_id r.fab_version = .ok app) :
    (∀ ex c1, app m c = .error (ex, c1) → ex.ty = .LoadClientAppError →
      ((run_clientapp stub loadFn token fuel).2).filter Event.isPush =
        [.pushCall t
          (m.create_error_reply
            { code := .LOAD_CLIENT_APP_EXCEPTION,
              reason := "An exception was raised when attempting to load `ClientApp`" })
          c1])
    ∧ (∀ ex c1, app m c = .error (ex, c1) → ex.isException = true →
        ex.ty ≠ .LoadClientAppError →
      ((run_clientapp stub loadFn token fuel).2).filter Event.isPush =
        [.pushCall t
          (m.create_error_reply
            { code := .CLIENT_APP_RAISED_EXCEPTION,
              reason := ex.ty.typeStr ++ ":<'" ++ ex.msg ++ "'>" })
          c1]) := by
  constructor
  · intro ex c1 hcall hty
    exact filter_push_of_boundary_ok hacq hpull
      (callbackBoundary_of_loadError_exc (by simp [tryLoadAndCall, hload, hcall]) hty)
  · intro ex c1 hcall hexc hty
    exact filter_push_of_boundary_ok hacq hpull
      (callbackBoundary_of_exec_exc hload hcall hexc
        (by simpa [PyExc.isLoadClientAppError] using hty))

/-- Witness for C9: a `LoadClientAppError("late load error")` raised during
invocation (loading itself succeeded) is still reported with the load
code and the fixed reason — "late load error" is discarded. -/
theorem C9_witness :
    ((run_clientapp stubOk loadLateLoadErr (some 7) 0).2).filter Event.isPush =
      [.pushCall 7
        { metadata := 1, content := none,
          error := some
            { code := .LOAD_CLIENT_APP_EXCEPTION,
              reason := "An exception was raised when attempting to load `ClientApp`" } }
        ctx0] := by
  have h := (@C9_classification_by_type stubOk loadLateLoadErr (some 7) 0 0 7
    msg0 ctx0 run0
    (fun _ c => .error (⟨.LoadClientAppError, "late load error"⟩, c))
    rfl rfl rfl).1
    ⟨.LoadClientAppError, "late load error"⟩ ctx0 rfl rfl
  simpa [Message.create_error_reply, msg0] using h

theorem runBody_outOfFuel {stub : Stub} {token : Option Nat}
    {fuel calls : Nat} (loadFn : LoadFn)
    (h : acquireToken stub token fuel = .outOfFuel calls) :
    runBody stub loadFn token fuel =
      (.outOfFuel, List.replicate calls .getTokenCall) := by
  simp [runBody, h]

theorem run_clientapp_of_runBody_outOfFuel {stub : Stub} {loadFn : LoadFn}
    {token : Option Nat} {fuel : Nat} {evs : List Event}
    (h : runBody stub loadFn token fuel = (.outOfFuel, evs)) :
    run_clientapp stub loadFn token fuel = (.outOfFuel, evs) := by
  simp [run_clientapp, h]

/-- Any `Exception` caught at the boundary yields the error reply whose
code and reason are the source's type-based choice. -/
theorem callbackBoundary_of_exception {loadFn : LoadFn} {r : Run}
    {m : Message} {c c1 : Context} {ex : PyExc}
    (htry : tryLoadAndCall loadFn r m c = .error (ex, c1))
    (hexc : ex.isException = true) :
    callbackBoundary loadFn r m c =
      .ok (m.create_error_reply
        { code :=
            if ex.isLoadClientAppError then .LOAD_CLIENT_APP_EXCEPTION
            else .CLIENT_APP_RAISED_EXCEPTION,
          reason :=
            if ex.isLoadClientAppError then
              "An exception was raised when attempting to load `ClientApp`"
            else ex.ty.typeStr ++ ":<'" ++ ex.msg ++ "'>" }, c1) := by
  simp [callbackBoundary, htry, hexc]

theorem countP_getToken_afterToken (stub : Stub) (loadFn : LoadFn) (t : Nat) :
    ((afterToken stub loadFn t).2).countP Event.isGetToken = 0 :=
  List.countP_eq_zero.2 fun e he => by
    simp [(afterToken_events stub loadFn t e he).1]

theorem countP_close_afterToken (stub : Stub) (loadFn : LoadFn) (t : Nat) :
    ((afterToken stub loadFn t).2).countP Event.isClose = 0 :=
  List.countP_eq_zero.2 fun e he => by
    simp [(afterToken_events stub loadFn t e he).2]

/-- Counterexample to Claim C1 as stated: a `KeyboardInterrupt` raised by
the callback is an exception that escapes the fault boundary, so although
the work unit was fetched (the pull call is in the trace), no Reply is
pushed. -/
theorem C1_counterexample :
    Event.pullCall 7 ∈ (run_clientapp stubOk loadKI (some 7) 0).2
    ∧ ((run_clientapp stubOk loadKI (some 7) 0).2).countP Event.isPush = 0 := by
  exact ⟨by decide, by decide⟩

/-- Claim C1 (amended): for every fetched work unit, whatever `Exception`
(in the Python sense: an instance of `Exception`, which is all the
`except Exception` boundary can catch) callback resolution or invocation
raises, the driver obtains a usable reply message — the callback's output
or an error reply built via `create_error_reply` — and a Reply is pushed. -/
theorem C1_reply_always_pushed {stub : Stub} {loadFn : LoadFn}
    {token : Option Nat} {fuel calls t : Nat}
    {m : Message} {c : Context} {r : Run}
    (hacq : acquireToken stub token fuel = .got calls t)
    (hpull : stub.pullClientAppInputs t = .ok (m, c, r))
    (hexc : ∀ ex c1, tryLoadAndCall loadFn r m c = .error (ex, c1) →
      ex.isException = true) :
    ∃ rm rc, ((run_clientapp stub loadFn token fuel).2).filter Event.isPush =
      [.pushCall t rm rc] := by
  cases htry : tryLoadAndCall loadFn r m c with
  | ok p =>
    obtain ⟨rm, rc⟩ := p
    have hb : callbackBoundary loadFn r m c = .ok (rm, rc) := by
      simp [callbackBoundary, htry]
    exact ⟨rm, rc, filter_push_of_boundary_ok hacq hpull hb⟩
  | error p =>
    obtain ⟨ex, c1⟩ := p
    exact ⟨_, c1, filter_push_of_boundary_ok hacq hpull
      (callbackBoundary_of_exception htry (hexc ex c1 htry))⟩

/-- Witness for C1 (amended): in Scenario D (callback raises
`ZeroDivisionError`, an `Exception`) a Reply is pushed. -/
theorem C1_witness :
    ∃ rm rc, ((run_clientapp stubOk loadZeroDiv (some 7) 0).2).filter Event.isPush =
      [.pushCall 7 rm rc] :=
  @C1_reply_always_pushed stubOk loadZeroDiv (some 7) 0 0 7 msg0 ctx0 run0
    rfl rfl (by intro ex c1 h; cases h; rfl)

/-- Claim C10 (implicit): the fault boundary converts exactly the
exceptions that are instances of `Exception`.  Such an exception leads to
an error Reply being built and pushed; a `BaseException` that is not an
`Exception` escapes the boundary, so no Reply is pushed for the work unit
and only the session close runs (with `KeyboardInterrupt` caught by the
outer handler and `SystemExit` re-raised past `run_clientapp`). -/
theorem C10_boundary_catches_exactly_Exception {stub : Stub} {loadFn : LoadFn}
    {token : Option Nat} {fuel calls t : Nat}
    {m : Message} {c : Context} {r : Run}
    (hacq : acquireToken stub token fuel = .got calls t)
    (hpull : stub.pullClientAppInputs t = .ok (m, c, r)) :
    (∀ ex c1, tryLoadAndCall loadFn r m c = .error (ex, c1) →
      ex.isException = true →
      ∃ rm, ((run_clientapp stub loadFn token fuel).2).filter Event.isPush =
          [.pushCall t rm c1]
        ∧ rm.error.isSome = true)
    ∧ (∀ ex c1, tryLoadAndCall loadFn r m c = .error (ex, c1) →
        ex.isException = false →
        ((run_clientapp stub loadFn token fuel).2).countP Event.isPush = 0
        ∧ ((run_clientapp stub loadFn token fuel).2).countP Event.isClose = 1
        ∧ (ex.ty = .KeyboardInterrupt →
            (run_clientapp stub loadFn token fuel).1 = .interrupted)
        ∧ (ex.ty = .SystemExit →
            (run_clientapp stub loadFn token fuel).1 = .raised ex)) := by
  constructor
  · intro ex c1 htry hexc
    exact ⟨_, filter_push_of_boundary_ok hacq hpull
      (callbackBoundary_of_exception htry hexc), rfl⟩
  · intro ex c1 htry hexc
    have hb : callbackBoundary loadFn r m c = .error ex :=
      callbackBoundary_of_base_exc htry hexc
    have haf := afterToken_eq_boundary_exc hpull hb
    have hrun := run_of_afterToken_exc hacq haf
    refine ⟨?_, ?_, ?_, ?_⟩
    · rw [hrun]
      simp [List.countP_append, List.countP_replicate, Event.isPush]
    · rw [hrun]
      simp [List.countP_append, List.countP_replicate, Event.isClose]
    · intro hty
      rw [hrun]
      simp [outcomeOfExc, hty]
    · intro hty
      rw [hrun]
      simp [outcomeOfExc, hty]

/-- Witness for C10: the callback raising `KeyboardInterrupt` leaves the
trace with no push and one channel close, and the run exits through the
`except KeyboardInterrupt` handler. -/
theorem C10_witness :
    ((run_clientapp stubOk loadKI (some 7) 0).2).countP Event.isPush = 0
    ∧ ((run_clientapp stubOk loadKI (some 7) 0).2).countP Event.isClose = 1
    ∧ (run_clientapp stubOk loadKI (some 7) 0).1 = .interrupted := by
  have h := (@C10_boundary_catches_exactly_Exception stubOk loadKI (some 7) 0 0 7
    msg0 ctx0 run0 rfl rfl).2 ⟨.KeyboardInterrupt, ""⟩ ctx0 rfl rfl
  exact ⟨h.1, h.2.1, h.2.2.1 rfl⟩

/-- Claim C5: in every non-aborted process run (the `try` body completed),
exactly one `PullClientAppInputs` call and exactly one
`PushClientAppOutputs` call are made, both carrying the identical token
value, which is the pre-supplied token when one was given. -/
theorem C5_exactly_one_pull_and_push {stub : Stub} {loadFn : LoadFn}
    {token : Option Nat} {fuel : Nat}
    (h : (run_clientapp stub loadFn token fuel).1 = .completed) :
    ∃ t, ((run_clientapp stub loadFn token fuel).2).filter Event.isPull =
        [.pullCall t]
      ∧ (∃ rm rc, ((run_clientapp stub loadFn token fuel).2).filter Event.isPush =
          [.pushCall t rm rc])
      ∧ (∀ t0, token = some t0 → t = t0) := by
  cases hacq : acquireToken stub token fuel with
  | raised calls e =>
    rw [run_of_acquire_raised loadFn hacq] at h
    exact absurd h (outcomeOfExc_ne_completed e)
  | outOfFuel calls =>
    rw [run_clientapp_of_runBody_outOfFuel (runBody_outOfFuel loadFn hacq)] at h
    exact absurd h (by simp)
  | got calls t =>
    cases hp : stub.pullClientAppInputs t with
    | error e =>
      rw [run_of_afterToken_exc hacq (afterToken_eq_pull_error loadFn hp)] at h
      exact absurd h (outcomeOfExc_ne_completed e)
    | ok trip =>
      obtain ⟨m, c, r⟩ := trip
      cases hbd : callbackBoundary loadFn r m c with
      | error ex =>
        rw [run_of_afterToken_exc hacq (afterToken_eq_boundary_exc hp hbd)] at h
        exact absurd h (outcomeOfExc_ne_completed ex)
      | ok p =>
        obtain ⟨rm, c1⟩ := p
        cases hq : stub.pushClientAppOutputs t rm c1 with
        | error e =>
          rw [run_of_afterToken_exc hacq (afterToken_eq_push_error hp hbd hq)] at h
          exact absurd h (outcomeOfExc_ne_completed e)
        | ok u =>
          have hrun := run_of_afterToken_ok hacq (afterToken_eq_push_ok hp hbd hq)
          refine ⟨t, ?_, ⟨rm, c1, ?_⟩, ?_⟩
          · rw [hrun]
            simp [List.filter_append, List.filter_replicate, Event.isPull]
          · rw [hrun]
            simp [List.filter_append, List.filter_replicate, Event.isPush]
          · intro t0 ht0
            subst ht0
            simp [acquireToken] at hacq
            omega

/-- Witness for C5, Scenario A: pre-supplied token 7, callback succeeds;
the run completes with one pull and one push, both on token 7. -/
theorem C5_witness :
    ∃ t, ((run_clientapp stubOk loadOk (some 7) 0).2).filter Event.isPull =
        [.pullCall t]
      ∧ (∃ rm rc, ((run_clientapp stubOk loadOk (some 7) 0).2).filter Event.isPush =
          [.pushCall t rm rc])
      ∧ (∀ t0, (some 7 : Option Nat) = some t0 → t = t0) :=
  @C5_exactly_one_pull_and_push stubOk loadOk (some 7) 0 rfl

/-- Claim C6: `GetToken` is invoked if and only if no token was
pre-supplied.  With a pre-supplied token the trace holds no `GetToken`
call at all; with none, the driver polls until the first non-null answer
(say at call index `k`, returning `t`), making exactly `k+1` `GetToken`
calls, after which the very next call is `PullClientAppInputs(t)`. -/
theorem C6_token_gate (stub : Stub) (loadFn : LoadFn) :
    (∀ t0 fuel,
      ((run_clientapp stub loadFn (some t0) fuel).2).countP Event.isGetToken = 0)
    ∧ (∀ k t fuel, (∀ i, i < k → stub.getToken i = .ok none) →
        stub.getToken k = .ok (some t) → k < fuel →
        (∃ rest, (run_clientapp stub loadFn none fuel).2 =
            List.replicate (k + 1) .getTokenCall ++ .pullCall t :: rest)
        ∧ ((run_clientapp stub loadFn none fuel).2).countP Event.isGetToken
            = k + 1) := by
  constructor
  · intro t0 fuel
    have hacq : acquireToken stub (some t0) fuel = .got 0 t0 := rfl
    rw [run_trace_got loadFn hacq]
    simp [List.countP_append, List.countP_replicate, Event.isGetToken,
      countP_getToken_afterToken]
  · intro k t fuel hnone hsome hk
    have hacq : acquireToken stub none fuel = .got (k + 1) t := by
      have := pollToken_got stub hnone hsome fuel 0 (Nat.zero_le k) (by omega)
      simpa [acquireToken] using this
    constructor
    · obtain ⟨rest, hrest⟩ := afterToken_starts_pull stub loadFn t
      refine ⟨rest ++ [.channelClose], ?_⟩
      rw [run_trace_got loadFn hacq, hrest]
      simp
    · rw [run_trace_got loadFn hacq]
      simp [List.countP_append, List.countP_replicate, Event.isGetToken,
        countP_getToken_afterToken]

/-- Witness for C6, Scenario B: no token supplied; `GetToken` answers
`null`, `null`, then 42: the trace begins with exactly three `GetToken`
calls followed by `PullClientAppInputs(42)`. -/
theorem C6_witness :
    (∃ rest, (run_clientapp stubPoll loadOk none 10).2 =
        List.replicate 3 .getTokenCall ++ .pullCall 42 :: rest)
    ∧ ((run_clientapp stubPoll loadOk none 10).2).countP Event.isGetToken = 3 :=
  (C6_token_gate stubPoll loadOk).2 2 42 10
    (by intro i hi; interval_cases i <;> rfl) rfl (by omega)

/-- Claim C7: every transport failure outside the fault boundary — a
`grpc.RpcError` raised by `GetToken`, `PullClientAppInputs`, or
`PushClientAppOutputs` — is fatal: the run exits through the logged
`except grpc.RpcError` handler (never re-raised, never converted into an
error Reply: no push is made for it beyond the single failed push attempt
itself), the channel is closed, and nothing is retried. -/
theorem C7_transport_failures_fatal (stub : Stub) (loadFn : LoadFn) :
    (∀ k ex fuel, (∀ i, i < k → stub.getToken i = .ok none) →
      stub.getToken k = .error ex → ex.ty = .RpcError → k < fuel →
      (run_clientapp stub loadFn none fuel).1 = .rpcFailed ex.msg
      ∧ ((run_clientapp stub loadFn none fuel).2).countP Event.isPull = 0
      ∧ ((run_clientapp stub loadFn none fuel).2).countP Event.isPush = 0
      ∧ ((run_clientapp stub loadFn none fuel).2).countP Event.isClose = 1)
    ∧ (∀ token fuel calls t ex, acquireToken stub token fuel = .got calls t →
        stub.pullClientAppInputs t = .error ex → ex.ty = .RpcError →
        (run_clientapp stub loadFn token fuel).1 = .rpcFailed ex.msg
        ∧ ((run_clientapp stub loadFn token fuel).2).countP Event.isPush = 0
        ∧ ((run_clientapp stub loadFn token fuel).2).countP Event.isClose = 1)
    ∧ (∀ token fuel calls t m c r rm c1 ex,
        acquireToken stub token fuel = .got calls t →
        stub.pullClientAppInputs t = .ok (m, c, r) →
        callbackBoundary loadFn r m c = .ok (rm, c1) →
        stub.pushClientAppOutputs t rm c1 = .error ex → ex.ty = .RpcError →
        (run_clientapp stub loadFn token fuel).1 = .rpcFailed ex.msg
        ∧ ((run_clientapp stub loadFn token fuel).2).countP Event.isPush = 1
        ∧ ((run_clientapp stub loadFn token fuel).2).countP Event.isClose = 1) := by
  refine ⟨?_, ?_, ?_⟩
  · intro k ex fuel hnone herr hty hk
    have hacq : acquireToken stub none fuel = .raised (k + 1) ex := by
      have := pollToken_raised stub hnone herr fuel 0 (Nat.zero_le k) (by omega)
      simpa [acquireToken] using this
    have hrun := run_of_acquire_raised loadFn hacq
    rw [hrun]
    refine ⟨by simp [outcomeOfExc, hty], ?_, ?_, ?_⟩ <;>
      simp [List.countP_append, List.countP_replicate, Event.isPull,
        Event.isPush, Event.isClose]
  · intro token fuel calls t ex hacq hp hty
    have hrun := run_of_afterToken_exc hacq (afterToken_eq_pull_error loadFn hp)
    rw [hrun]
    refine ⟨by simp [outcomeOfExc, hty], ?_, ?_⟩ <;>
      simp [List.countP_append, List.countP_replicate, Event.isPush,
        Event.isClose]
  · intro token fuel calls t m c r rm c1 ex hacq hp hb hq hty
    have hrun := run_of_afterToken_exc hacq (afterToken_eq_push_error hp hb hq)
    rw [hrun]
    refine ⟨by simp [outcomeOfExc, hty], ?_, ?_⟩ <;>
      simp [List.countP_append, List.countP_replicate, Event.isPush,
        Event.isClose]

/-- Witness for C7, Scenario E: the push raises a gRPC error; the run exits
through the error handler with the single failed push attempt in the trace
and the channel closed. -/
theorem C7_witness :
    (run_clientapp stubPushRpc loadOk (some 7) 0).1 = .rpcFailed "push failed"
    ∧ ((run_clientapp stubPushRpc loadOk (some 7) 0).2).countP Event.isPush = 1
    ∧ ((run_clientapp stubPushRpc loadOk (some 7) 0).2).countP Event.isClose = 1 :=
  (C7_transport_failures_fatal stubPushRpc loadOk).2.2 (some 7) 0 0 7
    msg0 ctx0 run0 msg1 ctx1 ⟨.RpcError, "push failed"⟩ rfl rfl rfl rfl rfl

/-- Claim C8: the gRPC channel is closed on every exit path of
`run_clientapp` — normal completion, `KeyboardInterrupt`, `grpc.RpcError`,
or any escaping exception — exactly once per run, as the final action
(`finally: channel.close()`).  The only run without a close is one that
never exits the unbounded token polling loop. -/
theorem C8_channel_closed_once {stub : Stub} {loadFn : LoadFn}
    {token : Option Nat} {fuel : Nat}
    (h : (run_clientapp stub loadFn token fuel).1 ≠ .outOfFuel) :
    ((run_clientapp stub loadFn token fuel).2).countP Event.isClose = 1
    ∧ ∃ l, (run_clientapp stub loadFn token fuel).2 = l ++ [.channelClose] := by
  cases hacq : acquireToken stub token fuel with
  | raised calls e =>
    rw [run_of_acquire_raised loadFn hacq]
    exact ⟨by simp [List.countP_append, List.countP_replicate, Event.isClose],
      _, rfl⟩
  | outOfFuel calls =>
    rw [run_clientapp_of_runBody_outOfFuel (runBody_outOfFuel loadFn hacq)] at h
    exact absurd rfl h
  | got calls t =>
    rw [run_trace_got loadFn hacq]
    constructor
    · simp [List.countP_append, List.countP_replicate, Event.isClose,
        countP_close_afterToken]
    · exact ⟨List.replicate calls .getTokenCall ++ (afterToken stub loadFn t).2,
        by simp⟩

/-- Witness for C8: the interrupted run of Scenario D's sibling (callback
raising `KeyboardInterrupt`) still closes the channel exactly once, as its
final action. -/
theorem C8_witness :
    ((run_clientapp stubOk loadKI (some 7) 0).2).countP Event.isClose = 1
    ∧ ∃ l, (run_clientapp stubOk loadKI (some 7) 0).2 = l ++ [.channelClose] :=
  @C8_channel_closed_once stubOk loadKI (some 7) 0 (by decide)

end Flwr
